import Mathlib

/-!
Verification development for the IGEUL text-adaptation backend.

Shallow embedding of:
* `functions/utils/analysis.js` — the pure text-analysis engine (`analyzeText`);
* `functions/api/simplification.js` — the adaptation orchestrator
  (`simplifyText`), its background report step (`generateAndSaveReport`),
  and the report query service (`getSimplificationReport`)
over an explicit job-store state.

JavaScript numbers are embedded as `Nat` (counters) and `Rat` (the derived
ratios, which the source computes with IEEE doubles; the formulas themselves
carry over verbatim).  Possibly-absent JS fields are `Option`s, and the JS
truthiness tests used by the source (`if (readingProfile.sentence)`,
`!title`, `!jobId`) are modelled explicitly.  Text is `List Char`; for the
Korean BMP text this system handles, JS `.length`/`charCodeAt` agree with
code-point count/values.
-/

namespace IGEUL

/-! ## Text analysis engine (`functions/utils/analysis.js`) -/

/-- The fixed Korean stopword list `KOREAN_STOPWORDS` from the source. -/
def KOREAN_STOPWORDS : List String :=
  ["이", "가", "은", "는", "을", "를", "의", "에", "에서", "에게", "께", "한테", "로", "으로", "과", "와",
   "그리고", "그래서", "그러나", "하지만", "그런데", "또는", "및",
   "것", "수", "때", "등", "저", "저희", "그", "그녀", "우리",
   "있다", "없다", "이다", "아니다", "되다", "하다"]

/-- JS `\s` whitespace, restricted to the ASCII range used by this system
(space, tab, LF, VT, FF, CR). -/
def isWS (c : Char) : Bool :=
  c.toNat = 32 || c.toNat = 9 || c.toNat = 10 || c.toNat = 11 || c.toNat = 12 || c.toNat = 13

/-- JS `String.prototype.trim`: strip whitespace from both ends. -/
def jsTrim (l : List Char) : List Char :=
  ((l.dropWhile isWS).reverse.dropWhile isWS).reverse

/-- Sentence separators: the character class `[.?!]` of `getSentences`. -/
def isSentenceSep (c : Char) : Bool :=
  c = '.' || c = '?' || c = '!'

/-- The punctuation class `[.,?!'"]` stripped by `getWords`
(codes 46 `.`, 44 `,`, 63 `?`, 33 `!`, 39 apostrophe, 34 double quote). -/
def isStrippedPunct (c : Char) : Bool :=
  c.toNat = 46 || c.toNat = 44 || c.toNat = 63 || c.toNat = 33 || c.toNat = 39 || c.toNat = 34

/-- `getSentences`: split on sentence separators, drop blank fragments.
The source splits on *runs* (`/[.?!]+/`); splitting on single separators
instead introduces only empty fragments, all removed by the same
`trim().length > 0` filter, so the returned list is identical. -/
def getSentences (text : List Char) : List (List Char) :=
  if text = [] then []
  else ((text.splitOnP isSentenceSep).filter fun s => 0 < (jsTrim s).length)

/-- `getWords`: trim, delete the punctuation set everywhere, split on
whitespace (the source's `/\s+/` runs; single-character splitting plus the
`length > 0` filter yields the same tokens), drop empty tokens. -/
def getWords (text : List Char) : List (List Char) :=
  if text = [] then []
  else ((((jsTrim text).filter fun c => !isStrippedPunct c).splitOnP isWS).filter
    fun w => 0 < w.length)

/-- Hangul syllable block test of `getHangulSyllableCount`
(U+AC00 = 44032 to U+D7A3 = 55203 inclusive). -/
def isHangulSyllable (c : Char) : Bool :=
  44032 ≤ c.toNat && c.toNat ≤ 55203

/-- `getHangulSyllableCount`: count characters inside the Hangul block. -/
def getHangulSyllableCount (text : List Char) : Nat :=
  (text.filter isHangulSyllable).length

/-- The metrics record returned by `analyzeText`. -/
structure AnalysisMetrics where
  charCount : Nat
  wordCount : Nat
  sentenceCount : Nat
  syllableCount : Nat
  stopwordCount : Nat
  avgSentenceLength : Rat
  avgWordSyllableLength : Rat
  readabilityScore : Rat
deriving DecidableEq, Repr

/-- `analyzeText` from `functions/utils/analysis.js`, field for field. -/
def analyzeText (text : List Char) : AnalysisMetrics :=
  let sentences := getSentences text
  let words := getWords text
  let stopwordCount :=
    (words.filter fun word => KOREAN_STOPWORDS.contains (String.mk word)).length
  let charCount := text.length
  let wordCount := words.length
  let sentenceCount := sentences.length
  let syllableCount := getHangulSyllableCount text
  let avgSentenceLength : Rat :=
    if 0 < sentenceCount then (wordCount : Rat) / (sentenceCount : Rat) else 0
  let avgWordSyllableLength : Rat :=
    if 0 < wordCount then (syllableCount : Rat) / (wordCount : Rat) else 0
  let readabilityScore : Rat :=
    (6/10 : Rat) * avgSentenceLength + (4/10 : Rat) * avgWordSyllableLength
  { charCount := charCount
    wordCount := wordCount
    sentenceCount := sentenceCount
    syllableCount := syllableCount
    stopwordCount := stopwordCount
    avgSentenceLength := avgSentenceLength
    avgWordSyllableLength := avgWordSyllableLength
    readabilityScore := readabilityScore }

/-! ## Data model (`functions/api/simplification.js` and the profile docs) -/

/-- A paragraph `{id, text}` as submitted and as returned by the oracle. -/
structure Paragraph where
  id : Int
  text : List Char
deriving DecidableEq, Repr

/-- The `readingProfile` sub-object of a user document.  The numeric fields
may be absent in the stored JS object, hence `Option`. -/
structure ReadingProfile where
  sentence : Option Int
  vocabulary : Option Int
deriving DecidableEq, Repr

/-- A user document from the `users` collection: the `readingProfile`
sub-object (possibly absent — the source defaults it with `|| {}`) and the
`knownTopics` string array. -/
structure UserProfile where
  readingProfile : Option ReadingProfile
  knownTopics : List String
deriving DecidableEq, Repr

/-- Job lifecycle states stored in the `status` field. -/
inductive JobStatus where
  | processing
  | completed
  | failed
deriving DecidableEq, Repr

/-- The relative-improvement figures of the background report
(`quantitative_analysis.improvements`). -/
structure Improvements where
  char_count_reduction : Rat
  word_count_reduction : Rat
  stopword_reduction_count : Rat
  readability_improvement : Rat
deriving DecidableEq, Repr

/-- The `analysis` report saved on completion: both metric snapshots and the
improvement figures.  (The derived `summary` display strings — rounded
percentages re-formatted from these same numbers — are not modelled; no
claim refers to them.) -/
structure AnalysisReport where
  original : AnalysisMetrics
  simplified : AnalysisMetrics
  improvements : Improvements
deriving DecidableEq, Repr

/-- A document of the `simplificationJobs` collection, as written by
`jobRef.set` and mutated by `jobRef.update`. -/
structure Job where
  userId : String
  status : JobStatus
  originalText : List Char
  simplifiedText : List Char
  analysis : Option AnalysisReport
  error : Option String
deriving DecidableEq, Repr

/-- A Firestore partial update: only the fields present (`some`) are
applied; absent fields are left untouched. -/
structure UpdateFields where
  status : Option JobStatus
  analysis : Option AnalysisReport
  error : Option String
deriving DecidableEq, Repr

/-- Apply a partial update to a job document (`jobRef.update`). -/
def applyUpdate (j : Job) (f : UpdateFields) : Job :=
  { j with
    status := match f.status with | some st => st | none => j.status
    analysis := match f.analysis with | some a => some a | none => j.analysis
    error := match f.error with | some e => some e | none => j.error }

/-- The job store (`simplificationJobs` collection), keyed by job id. -/
def Store := List (String × Job)

/-- Document read (`jobRef.get`). -/
def storeGet : Store → String → Option Job
  | [], _ => none
  | (k, j) :: rest, id => if k = id then some j else storeGet rest id

/-- Document create/overwrite (`jobRef.set`). -/
def storeSet : Store → String → Job → Store
  | [], id, j => [(id, j)]
  | (k, j0) :: rest, id, j =>
      if k = id then (k, j) :: rest else (k, j0) :: storeSet rest id j

/-- Partial document update (`jobRef.update`); in every trace this model
produces, the updated id exists (the same request created it). -/
def storeUpdate : Store → String → UpdateFields → Store
  | [], _, _ => []
  | (k, j) :: rest, id, f =>
      if k = id then (k, applyUpdate j f) :: rest
      else (k, j) :: storeUpdate rest id f

/-- A store effect of the orchestrator, in program order. -/
inductive Event where
  | jobCreate (id : String) (j : Job)
  | jobUpdate (id : String) (f : UpdateFields)
deriving DecidableEq, Repr

/-- Replay a sequence of store effects. -/
def runEvent (s : Store) : Event → Store
  | .jobCreate id j => storeSet s id j
  | .jobUpdate id f => storeUpdate s id f

/-- Replay a list of store effects in order. -/
def runEvents (s : Store) (evs : List Event) : Store :=
  evs.foldl runEvent s

/-! ## Guideline construction (`simplifyText`, lines 40–77) -/

/-- JS truthiness of a possibly-absent numeric field
(`if (readingProfile.sentence)`): absent and `0` are falsy. -/
def truthyNum : Option Int → Bool
  | none => false
  | some n => !(n = 0)

/-- JS truthiness of a possibly-absent string field (`!title`, `!jobId`):
absent and the empty string are falsy. -/
def truthyStr : Option String → Bool
  | none => false
  | some s => !(s = "")

/-- Sentence guideline, level 1 (source string, verbatim). -/
def SENTENCE_GUIDELINE_1 : String :=
  "50자를 초과하는 모든 문장은 반드시 2개 이상의 짧은 문장으로 분리하세요. 이때, 원래 문장의 구조나 표현은 거의 그대로 유지하고, 문장을 나누는 작업에만 집중해야 합니다. 불필요한 단어 삭제나 문장 재구성은 하지 마세요."

/-- Sentence guideline, level 2 (source string, verbatim). -/
def SENTENCE_GUIDELINE_2 : String :=
  "50자를 초과하는 모든 문장은 반드시 2개 이상의 짧은 문장으로 분리하세요. 또한, 관형절이나 종속절처럼 복잡한 문장 구조를 적극적으로 해체하여, 주어와 서술어가 명확한 여러 개의 독립된 문장으로 재구성해야 합니다. 원문의 핵심 정보를 유지하는 선에서, 문장의 순서를 바꾸거나 일부 단어를 변경하여 더 이해하기 쉽게 만드는 것을 목표로 합니다."

/-- Vocabulary guideline, level 1 (source string, verbatim). -/
def VOCAB_GUIDELINE_1 : String :=
  "어려운 한자어나 외래어를 쉬운 우리말로 바꿔주세요."

/-- Vocabulary guideline, level 2 (source string, verbatim). -/
def VOCAB_GUIDELINE_2 : String :=
  "어려운 어휘, 전문 용어, 관용구, 비유적 표현 등을 풀어서 설명하거나 직접적인 의미로 해석하여 전달해주세요."

/-- The sentence-dimension contribution to `guidelineSentences`:
`if (readingProfile.sentence) switch (readingProfile.sentence) {case 1 …
case 2 …}` — any other level (0, absent, 3, …) contributes nothing. -/
def sentenceGuidelines (rp : ReadingProfile) : List String :=
  if truthyNum rp.sentence then
    if rp.sentence = some 1 then [SENTENCE_GUIDELINE_1]
    else if rp.sentence = some 2 then [SENTENCE_GUIDELINE_2]
    else []
  else []

/-- The vocabulary-dimension contribution to `guidelineSentences`. -/
def vocabGuidelines (rp : ReadingProfile) : List String :=
  if truthyNum rp.vocabulary then
    if rp.vocabulary = some 1 then [VOCAB_GUIDELINE_1]
    else if rp.vocabulary = some 2 then [VOCAB_GUIDELINE_2]
    else []
  else []

/-- `guidelineSentences` accumulated in source order (sentence first,
then vocabulary). -/
def buildGuidelineSentences (rp : ReadingProfile) : List String :=
  sentenceGuidelines rp ++ vocabGuidelines rp

/-- The `readingProfile` actually used: `userProfile.readingProfile || {}`. -/
def effectiveReadingProfile (u : UserProfile) : ReadingProfile :=
  match u.readingProfile with
  | some rp => rp
  | none => { sentence := none, vocabulary := none }

/-- The `simplificationGuidelines` template string interpolated into the
oracle prompt's user-profile section:
newline, 16 spaces, the label, the joined guideline sentences, newline,
12 spaces.  This is the only profile-derived content of the prompt. -/
def simplificationGuidelines (u : UserProfile) : String :=
  "\n                - 읽기 프로필: "
    ++ String.intercalate " " (buildGuidelineSentences (effectiveReadingProfile u))
    ++ "\n            "

/-! ## Orchestrator (`simplifyText`) and background report step -/

/-- `paragraphs.map(p => p.text).join('\n\n')`. -/
def joinParagraphTexts (ps : List Paragraph) : List Char :=
  List.intercalate ('\n' :: '\n' :: []) (ps.map Paragraph.text)

/-- The improvement figures computed by `generateAndSaveReport`
(lines 174–198 of the source), formula for formula: the three reductions
guarded against a zero original metric, the stopword figure an unguarded
absolute difference. -/
def computeImprovements (o s : AnalysisMetrics) : Improvements :=
  { char_count_reduction :=
      if 0 < o.charCount then ((o.charCount : Rat) - (s.charCount : Rat)) / (o.charCount : Rat)
      else 0
    word_count_reduction :=
      if 0 < o.wordCount then ((o.wordCount : Rat) - (s.wordCount : Rat)) / (o.wordCount : Rat)
      else 0
    stopword_reduction_count := (o.stopwordCount : Rat) - (s.stopwordCount : Rat)
    readability_improvement :=
      if 0 < o.readabilityScore then (o.readabilityScore - s.readabilityScore) / o.readabilityScore
      else 0 }

/-- The `analysisReport` assembled by `generateAndSaveReport` from the two
text snapshots. -/
def buildAnalysisReport (originalText simplifiedText : List Char) : AnalysisReport :=
  let o := analyzeText originalText
  let s := analyzeText simplifiedText
  { original := o, simplified := s, improvements := computeImprovements o s }

/-- The partial update of the success branch:
`jobRef.update({status:'completed', analysis})`. -/
def completedFields (rep : AnalysisReport) : UpdateFields :=
  { status := some .completed, analysis := some rep, error := none }

/-- The partial update of the catch branch:
`jobRef.update({status:'failed', error: message})`. -/
def failedFields (msg : String) : UpdateFields :=
  { status := some .failed, analysis := none, error := some msg }

/-- Outcome of the oracle call (`openai.chat.completions.create` plus the
tool-call extraction).  `ok` carries the parsed `simplified_paragraphs`
field, which may itself be absent (`result.simplified_paragraphs || []`);
`noToolCall` is a response with no tool call / no arguments; `threw` is a
thrown upstream or parse error, landing in the outer catch. -/
inductive OracleOutcome where
  | threw
  | noToolCall
  | ok (simplified_paragraphs : Option (List Paragraph))
deriving DecidableEq, Repr

/-- The HTTP responses `simplifyText` can produce. -/
inductive SimplifyResponse where
  | methodNotAllowed                                              -- 405
  | unauthorized                                                  -- 401 (token error)
  | profileNotFound                                               -- 404
  | invalidRequest                                                -- 400 'Invalid request data.'
  | rejectedProfile                                               -- 400 {status:"rejected"}
  | oracleError                                                   -- 500 (no valid tool call)
  | serverError                                                   -- 500 (outer catch)
  | ok (jobId : String) (title : String) (paragraphs : List Paragraph)  -- 200
deriving DecidableEq, Repr

/-- One handled request: the environment supplies everything the handler
reads from the outside world — HTTP method, authentication outcome, the
caller's profile document, the request body, the oracle's behaviour, the
generated random job id, and whether the background report step throws
(`analysisFails = some message` models any exception inside
`generateAndSaveReport`, captured by its catch). -/
structure SimplifyEnv where
  methodIsPost : Bool
  auth : Option String
  profile : Option UserProfile
  title : Option String
  paragraphs : Option (List Paragraph)
  oracle : OracleOutcome
  jobId : String
  analysisFails : Option String
deriving DecidableEq, Repr

/-- Result of one `simplifyText` invocation: the HTTP response, the store
effects sequenced strictly before the response is sent (`await jobRef.set`),
and the store effects of the detached background step
(`generateAndSaveReport()`), which run after the response. -/
structure SimplifyRun where
  response : SimplifyResponse
  preEvents : List Event
  postEvents : List Event
deriving DecidableEq, Repr

/-- The `simplifyText` handler (lines 16–224 of
`functions/api/simplification.js`), branch for branch in source order:
405 on non-POST; 401 on auth failure; 404 on missing profile; 400 on a
falsy `title` or missing/non-array `paragraphs`; 400 `rejected` when
`readingProfile.sentence === 0 && readingProfile.vocabulary === 0`;
500 on oracle failure; otherwise create the job (status `processing`) and
respond 200, then finalize the job in the background. -/
def simplifyTextRun (env : SimplifyEnv) : SimplifyRun :=
  if env.methodIsPost = false then ⟨.methodNotAllowed, [], []⟩
  else match env.auth with
  | none => ⟨.unauthorized, [], []⟩
  | some uid =>
    match env.profile with
    | none => ⟨.profileNotFound, [], []⟩
    | some u =>
      if truthyStr env.title = false then ⟨.invalidRequest, [], []⟩
      else match env.paragraphs with
      | none => ⟨.invalidRequest, [], []⟩
      | some ps =>
        let rp := effectiveReadingProfile u
        if rp.sentence = some 0 ∧ rp.vocabulary = some 0 then ⟨.rejectedProfile, [], []⟩
        else match env.oracle with
        | .threw => ⟨.serverError, [], []⟩
        | .noToolCall => ⟨.oracleError, [], []⟩
        | .ok spsOpt =>
          let sps := spsOpt.getD []
          let originalFullText := joinParagraphTexts ps
          let simplifiedFullText := joinParagraphTexts sps
          let job : Job :=
            { userId := uid, status := .processing,
              originalText := originalFullText, simplifiedText := simplifiedFullText,
              analysis := none, error := none }
          let post : List Event :=
            match env.analysisFails with
            | some msg => [Event.jobUpdate env.jobId (failedFields msg)]
            | none =>
                [Event.jobUpdate env.jobId
                  (completedFields (buildAnalysisReport originalFullText simplifiedFullText))]
          ⟨.ok env.jobId (env.title.getD "") sps,
           [Event.jobCreate env.jobId job], post⟩

/-! ## Report query service (`getSimplificationReport`, lines 229–268) -/

/-- The HTTP responses of the report query.  `forbidden` (403) is part of
the response vocabulary of this API family (the sibling dictionary handler
produces it); whether this handler ever produces it is exactly what the
access-control claim is about. -/
inductive ReportResponse where
  | unauthorized                                  -- 401 (token error)
  | badRequest                                    -- 400 (no jobId)
  | notFound                                      -- 404
  | forbidden                                     -- 403
  | completedR (analysis : Option AnalysisReport) -- 200
  | processingR                                   -- 202
  | failedR (details : Option String)             -- 500 {status:'failed'}
deriving DecidableEq, Repr

/-- The `getSimplificationReport` handler, branch for branch: authenticate
(the decoded caller identity is bound but never compared to anything),
reject a falsy `jobId`, 404 on a missing job document, then answer purely
from the job's `status`. -/
def getSimplificationReport (store : Store) (auth : Option String)
    (jobId : Option String) : ReportResponse :=
  match auth with
  | none => .unauthorized
  | some _caller =>
    if truthyStr jobId = false then .badRequest
    else match storeGet store (jobId.getD "") with
    | none => .notFound
    | some job =>
      match job.status with
      | .completed => .completedR job.analysis
      | .processing => .processingR
      | .failed => .failedR job.error

/-! ## Fixtures for concrete counterexamples and witnesses -/

/-- A user whose profile requests vocabulary level 1 and lists `"IT"` as a
known topic. -/
def uC9 : UserProfile :=
  { readingProfile := some { sentence := none, vocabulary := some 1 },
    knownTopics := ["IT"] }

/-- Same reading profile as `uC9`, but with no known topics. -/
def uC9b : UserProfile :=
  { readingProfile := some { sentence := none, vocabulary := some 1 },
    knownTopics := [] }

/-- A request whose oracle response returns one paragraph with id 2 for an
input whose single paragraph has id 1. -/
def envC8 : SimplifyEnv :=
  { methodIsPost := true, auth := some "user-a", profile := some uC9,
    title := some "t", paragraphs := some [⟨1, "가".toList⟩],
    oracle := .ok (some [⟨2, "나".toList⟩]), jobId := "job1",
    analysisFails := none }

/-- A completed job owned by `"alice"`. -/
def jobC1 : Job :=
  { userId := "alice", status := .completed, originalText := [],
    simplifiedText := [], analysis := some (buildAnalysisReport [] []),
    error := none }

/-- A store holding only `jobC1` under id `"j1"`. -/
def storeC1 : Store := [("j1", jobC1)]

/-- A user profile requesting sentence level 1 and vocabulary level 2. -/
def uW : UserProfile :=
  { readingProfile := some { sentence := some 1, vocabulary := some 2 },
    knownTopics := [] }

/-- Submitted paragraphs for the witness run. -/
def pIn : List Paragraph := [⟨1, "가".toList⟩]

/-- Oracle output paragraphs for the witness run. -/
def pOut : List Paragraph := [⟨1, "가나".toList⟩]

/-- A fully successful submission environment. -/
def envW : SimplifyEnv :=
  { methodIsPost := true, auth := some "user-w", profile := some uW,
    title := some "t", paragraphs := some pIn,
    oracle := .ok (some pOut), jobId := "jobW", analysisFails := none }

/-- A successful submission whose background report step throws. -/
def envW4 : SimplifyEnv :=
  { envW with jobId := "jobW4", analysisFails := some "boom" }

/-- A user whose reading profile has both levels set to exactly 0. -/
def uZ : UserProfile :=
  { readingProfile := some { sentence := some 0, vocabulary := some 0 },
    knownTopics := [] }

/-- A user whose reading profile has no sentence level and the spec-valid
vocabulary level 3. -/
def u10 : UserProfile :=
  { readingProfile := some { sentence := none, vocabulary := some 3 },
    knownTopics := [] }

/-! ## Helper lemmas -/

theorem storeGet_set_self (s : Store) (id : String) (j : Job) :
    storeGet (storeSet s id j) id = some j := by
  induction s with
  | nil => simp [storeSet, storeGet]
  | cons hd tl ih =>
    obtain ⟨k, j0⟩ := hd
    by_cases hk : k = id
    · simp [storeSet, hk, storeGet]
    · simp [storeSet, hk, storeGet, ih]

theorem storeGet_update_self (s : Store) (id : String) (f : UpdateFields) :
    storeGet (storeUpdate s id f) id
      = (storeGet s id).map (fun j => applyUpdate j f) := by
  induction s with
  | nil => simp [storeUpdate, storeGet]
  | cons hd tl ih =>
    obtain ⟨k, j0⟩ := hd
    by_cases hk : k = id
    · simp [storeUpdate, hk, storeGet]
    · simp [storeUpdate, hk, storeGet, ih]

/-- Every `200` response of `simplifyText` comes from the success branch:
the job id is the generated one, the single pre-response store effect
creates the job with status `processing` and neither `analysis` nor
`error`, and the single background effect is one terminal partial update —
`completedFields` of the computed report, or `failedFields` of an error
message. -/
theorem simplifyTextRun_ok_inversion (env : SimplifyEnv) (jid t : String)
    (ps : List Paragraph)
    (h : (simplifyTextRun env).response = .ok jid t ps) :
    jid = env.jobId ∧
    ∃ uid oT sT,
      (simplifyTextRun env).preEvents =
        [Event.jobCreate env.jobId
          { userId := uid, status := .processing, originalText := oT,
            simplifiedText := sT, analysis := none, error := none }] ∧
      ((simplifyTextRun env).postEvents =
          [Event.jobUpdate env.jobId (completedFields (buildAnalysisReport oT sT))] ∨
       ∃ m, (simplifyTextRun env).postEvents =
          [Event.jobUpdate env.jobId (failedFields m)]) := by
  obtain ⟨mi, auth, prof, title, paras, orc, jid0, af⟩ := env
  cases mi with
  | false => simp [simplifyTextRun] at h
  | true =>
    cases auth with
    | none => simp [simplifyTextRun] at h
    | some uid =>
      cases prof with
      | none => simp [simplifyTextRun] at h
      | some u =>
        by_cases ht : truthyStr title = false
        · simp [simplifyTextRun, ht] at h
        · cases paras with
          | none => simp [simplifyTextRun, ht] at h
          | some ps0 =>
            by_cases hrej : (effectiveReadingProfile u).sentence = some 0
                ∧ (effectiveReadingProfile u).vocabulary = some 0
            · simp [simplifyTextRun, ht, hrej] at h
            · cases orc with
              | threw => simp [simplifyTextRun, ht, hrej] at h
              | noToolCall => simp [simplifyTextRun, ht, hrej] at h
              | ok spsOpt =>
                cases af with
                | none =>
                  simp [simplifyTextRun, ht, hrej, SimplifyResponse.ok.injEq] at h
                  exact ⟨h.1.symm, uid, joinParagraphTexts ps0,
                    joinParagraphTexts (spsOpt.getD []),
                    by simp [simplifyTextRun, ht, hrej],
                    Or.inl (by simp [simplifyTextRun, ht, hrej])⟩
                | some m =>
                  simp [simplifyTextRun, ht, hrej, SimplifyResponse.ok.injEq] at h
                  exact ⟨h.1.symm, uid, joinParagraphTexts ps0,
                    joinParagraphTexts (spsOpt.getD []),
                    by simp [simplifyTextRun, ht, hrej],
                    Or.inr ⟨m, by simp [simplifyTextRun, ht, hrej]⟩⟩

/-- The derived ratios of `analyzeText`, as the source guards them
(definitional unfolding of the record fields). -/
theorem analyzeText_avgSentenceLength (t : List Char) :
    (analyzeText t).avgSentenceLength =
      if 0 < (analyzeText t).sentenceCount then
        ((analyzeText t).wordCount : Rat) / ((analyzeText t).sentenceCount : Rat)
      else 0 := rfl

theorem analyzeText_avgWordSyllableLength (t : List Char) :
    (analyzeText t).avgWordSyllableLength =
      if 0 < (analyzeText t).wordCount then
        ((analyzeText t).syllableCount : Rat) / ((analyzeText t).wordCount : Rat)
      else 0 := rfl

theorem analyzeText_readabilityScore (t : List Char) :
    (analyzeText t).readabilityScore =
      (6/10 : Rat) * (analyzeText t).avgSentenceLength
        + (4/10 : Rat) * (analyzeText t).avgWordSyllableLength := rfl

/-- The readability score is a nonnegative combination of nonnegative
ratios of counts. -/
theorem analyzeText_readability_nonneg (t : List Char) :
    0 ≤ (analyzeText t).readabilityScore := by
  have h1 : 0 ≤ (analyzeText t).avgSentenceLength := by
    rw [analyzeText_avgSentenceLength]
    split
    · positivity
    · exact le_refl 0
  have h2 : 0 ≤ (analyzeText t).avgWordSyllableLength := by
    rw [analyzeText_avgWordSyllableLength]
    split
    · positivity
    · exact le_refl 0
  rw [analyzeText_readabilityScore]
  have := add_nonneg (mul_nonneg (by norm_num : (0:Rat) ≤ 6/10) h1)
    (mul_nonneg (by norm_num : (0:Rat) ≤ 4/10) h2)
  exact this

/-! ## Claims about the text-analysis engine -/

/-- C5: `analyzeText` is total — every input string, the empty string
included, yields a fully populated metrics record (in this embedding the
division guards of the source make the function total by construction, so
no division error can arise) — and the empty string yields the all-zero
record. -/
theorem claim5_analysis_total_and_empty_zero :
    (∀ t : List Char, ∃ m : AnalysisMetrics, analyzeText t = m) ∧
    analyzeText (String.toList "") =
      { charCount := 0, wordCount := 0, sentenceCount := 0, syllableCount := 0,
        stopwordCount := 0, avgSentenceLength := 0, avgWordSyllableLength := 0,
        readabilityScore := 0 } := by
  refine ⟨fun t => ⟨analyzeText t, rfl⟩, ?_⟩
  have h : analyzeText (String.toList "") =
      { charCount := 0, wordCount := 0, sentenceCount := 0, syllableCount := 0,
        stopwordCount := 0, avgSentenceLength := 0, avgWordSyllableLength := 0,
        readabilityScore := (6/10 : Rat) * 0 + (4/10 : Rat) * 0 } := rfl
  rw [h]
  simp only [AnalysisMetrics.mk.injEq]
  norm_num

/-- C6: for every input, `avgSentenceLength` is `wordCount / sentenceCount`
(0 when `sentenceCount` is 0), `avgWordSyllableLength` is
`syllableCount / wordCount` (0 when `wordCount` is 0), and
`readabilityScore` is exactly `0.6 * avgSentenceLength +
0.4 * avgWordSyllableLength`. -/
theorem claim6_derived_ratios (t : List Char) :
    ((analyzeText t).avgSentenceLength =
      if (analyzeText t).sentenceCount = 0 then 0
      else ((analyzeText t).wordCount : Rat) / ((analyzeText t).sentenceCount : Rat)) ∧
    ((analyzeText t).avgWordSyllableLength =
      if (analyzeText t).wordCount = 0 then 0
      else ((analyzeText t).syllableCount : Rat) / ((analyzeText t).wordCount : Rat)) ∧
    ((analyzeText t).readabilityScore =
      (6/10 : Rat) * (analyzeText t).avgSentenceLength
        + (4/10 : Rat) * (analyzeText t).avgWordSyllableLength) := by
  refine ⟨?_, ?_, analyzeText_readabilityScore t⟩
  · rw [analyzeText_avgSentenceLength]
    rcases Nat.eq_zero_or_pos (analyzeText t).sentenceCount with h | h
    · simp [h]
    · simp [h, Nat.pos_iff_ne_zero.mp h]
  · rw [analyzeText_avgWordSyllableLength]
    rcases Nat.eq_zero_or_pos (analyzeText t).wordCount with h | h
    · simp [h]
    · simp [h, Nat.pos_iff_ne_zero.mp h]

/-! ## Claims about the background report figures (C2) -/

/-- C2 is FALSE as stated: on original text `"그 그"` (two stopword tokens)
and simplified text `"그"` (one stopword token), the source computes
`stopword_reduction_count = 2 - 1 = 1`, not the claimed relative ratio
`(2 - 1) / 2 = 1/2`. -/
theorem claim2_counterexample :
    (computeImprovements (analyzeText (String.toList "그 그"))
        (analyzeText (String.toList "그"))).stopword_reduction_count ≠
      (((analyzeText (String.toList "그 그")).stopwordCount : Rat)
          - ((analyzeText (String.toList "그")).stopwordCount : Rat))
        / ((analyzeText (String.toList "그 그")).stopwordCount : Rat) := by
  have h1 : (analyzeText (String.toList "그 그")).stopwordCount = 2 := rfl
  have h2 : (analyzeText (String.toList "그")).stopwordCount = 1 := rfl
  simp only [computeImprovements, h1, h2]
  norm_num

/-- C2 (amended): `charCountReduction`, `wordCountReduction` and
`readabilityImprovement` are each `(original − simplified) / original`,
defined as 0 when the original metric is 0; `stopwordReductionCount`,
however, is the absolute difference
`original.stopwordCount − simplified.stopwordCount`, not a ratio. -/
theorem claim2_amended_improvements (tO tS : List Char) :
    ((computeImprovements (analyzeText tO) (analyzeText tS)).char_count_reduction =
      if (analyzeText tO).charCount = 0 then 0
      else (((analyzeText tO).charCount : Rat) - ((analyzeText tS).charCount : Rat))
            / ((analyzeText tO).charCount : Rat)) ∧
    ((computeImprovements (analyzeText tO) (analyzeText tS)).word_count_reduction =
      if (analyzeText tO).wordCount = 0 then 0
      else (((analyzeText tO).wordCount : Rat) - ((analyzeText tS).wordCount : Rat))
            / ((analyzeText tO).wordCount : Rat)) ∧
    ((computeImprovements (analyzeText tO) (analyzeText tS)).readability_improvement =
      if (analyzeText tO).readabilityScore = 0 then 0
      else ((analyzeText tO).readabilityScore - (analyzeText tS).readabilityScore)
            / (analyzeText tO).readabilityScore) ∧
    ((computeImprovements (analyzeText tO) (analyzeText tS)).stopword_reduction_count =
      ((analyzeText tO).stopwordCount : Rat) - ((analyzeText tS).stopwordCount : Rat)) := by
  refine ⟨?_, ?_, ?_, rfl⟩
  · simp only [computeImprovements]
    rcases Nat.eq_zero_or_pos (analyzeText tO).charCount with h | h
    · simp [h]
    · simp [h, Nat.pos_iff_ne_zero.mp h]
  · simp only [computeImprovements]
    rcases Nat.eq_zero_or_pos (analyzeText tO).wordCount with h | h
    · simp [h]
    · simp [h, Nat.pos_iff_ne_zero.mp h]
  · simp only [computeImprovements]
    rcases lt_or_eq_of_le (analyzeText_readability_nonneg tO) with h | h
    · rw [if_pos h, if_neg (ne_of_gt h)]
    · simp [← h]

theorem applyUpdate_completedFields (j : Job) (rep : AnalysisReport) :
    applyUpdate j (completedFields rep) =
      { j with status := .completed, analysis := some rep } := rfl

theorem applyUpdate_failedFields (j : Job) (m : String) :
    applyUpdate j (failedFields m) = { j with status := .failed, error := some m } := rfl

/-- With an authenticated caller and a non-empty job id, the report query
is a pure function of the stored job's status. -/
theorem getReport_by_status (store : Store) (c jid : String) (hne : jid ≠ "") :
    getSimplificationReport store (some c) (some jid) =
      match storeGet store jid with
      | none => .notFound
      | some job =>
        match job.status with
        | .completed => .completedR job.analysis
        | .processing => .processingR
        | .failed => .failedR job.error := by
  simp [getSimplificationReport, truthyStr, hne]

/-! ## Claims about the orchestrator's job lifecycle (C3, C4, C7) -/

/-- C3: for every successful submission, the pre-response store effects
already contain the job record with status `processing`; an immediate poll
with the returned job id answers `202 processing`, and a poll after the
background step has also run never answers `404` (the job id is fresh —
the source generates 16 random bytes — modelled by quantifying over every
store; overwrite semantics make the conclusion independent of prior
contents). -/
theorem claim3_job_created_before_response (env : SimplifyEnv) (store0 : Store)
    (jid t : String) (ps : List Paragraph) (caller : String)
    (h : (simplifyTextRun env).response = .ok jid t ps)
    (hne : jid ≠ "") :
    (∃ j, storeGet (runEvents store0 (simplifyTextRun env).preEvents) jid = some j ∧
      j.status = .processing) ∧
    getSimplificationReport (runEvents store0 (simplifyTextRun env).preEvents)
      (some caller) (some jid) = .processingR ∧
    getSimplificationReport
      (runEvents store0 ((simplifyTextRun env).preEvents ++ (simplifyTextRun env).postEvents))
      (some caller) (some jid) ≠ .notFound := by
  obtain ⟨hjid, uid, oT, sT, hpre, hpost⟩ := simplifyTextRun_ok_inversion env jid t ps h
  subst hjid
  rw [hpre]
  have hset : storeGet (runEvents store0 [Event.jobCreate env.jobId
      { userId := uid, status := .processing, originalText := oT,
        simplifiedText := sT, analysis := none, error := none }]) env.jobId =
      some { userId := uid, status := .processing, originalText := oT,
             simplifiedText := sT, analysis := none, error := none } := by
    simp only [runEvents, List.foldl, runEvent]
    exact storeGet_set_self store0 env.jobId _
  refine ⟨⟨_, hset, rfl⟩, ?_, ?_⟩
  · rw [getReport_by_status _ _ _ hne, hset]
  · rcases hpost with hpost | ⟨m, hpost⟩ <;> rw [hpost] <;>
      rw [getReport_by_status _ _ _ hne] <;>
      simp only [runEvents, List.foldl, runEvent, List.cons_append, List.nil_append] <;>
      rw [storeGet_update_self, storeGet_set_self] <;>
      simp [applyUpdate, completedFields, failedFields]

/-- C4: a job finalized by a successful submission reaches a terminal
state with exactly one of the two result fields: `completed` with an
`analysis` and no `error`, or `failed` with an `error` and no `analysis` —
never both, never neither. -/
theorem claim4_terminal_exclusivity (env : SimplifyEnv) (store0 : Store)
    (jid t : String) (ps : List Paragraph)
    (h : (simplifyTextRun env).response = .ok jid t ps) :
    ∃ j, storeGet
        (runEvents store0 ((simplifyTextRun env).preEvents ++ (simplifyTextRun env).postEvents))
        jid = some j ∧
      ((j.status = .completed ∧ j.analysis.isSome = true ∧ j.error = none) ∨
       (j.status = .failed ∧ j.error.isSome = true ∧ j.analysis = none)) := by
  obtain ⟨hjid, uid, oT, sT, hpre, hpost⟩ := simplifyTextRun_ok_inversion env jid t ps h
  subst hjid
  rw [hpre]
  rcases hpost with hpost | ⟨m, hpost⟩
  · rw [hpost]
    refine ⟨{ userId := uid, status := .completed, originalText := oT,
              simplifiedText := sT, analysis := some (buildAnalysisReport oT sT),
              error := none }, ?_, Or.inl ⟨rfl, rfl, rfl⟩⟩
    simp only [runEvents, List.foldl, runEvent, List.cons_append, List.nil_append]
    rw [storeGet_update_self, storeGet_set_self]
    rfl
  · rw [hpost]
    refine ⟨{ userId := uid, status := .failed, originalText := oT,
              simplifiedText := sT, analysis := none, error := some m },
      ?_, Or.inr ⟨rfl, rfl, rfl⟩⟩
    simp only [runEvents, List.foldl, runEvent, List.cons_append, List.nil_append]
    rw [storeGet_update_self, storeGet_set_self]
    rfl

/-- Witness for C3: a concrete successful run against the empty store. -/
theorem claim3_witness :
    (∃ j, storeGet (runEvents [] (simplifyTextRun envW).preEvents) "jobW" = some j ∧
      j.status = .processing) ∧
    getSimplificationReport (runEvents [] (simplifyTextRun envW).preEvents)
      (some "someone") (some "jobW") = .processingR ∧
    getSimplificationReport
      (runEvents [] ((simplifyTextRun envW).preEvents ++ (simplifyTextRun envW).postEvents))
      (some "someone") (some "jobW") ≠ .notFound :=
  claim3_job_created_before_response envW [] "jobW" "t" pOut "someone" rfl (by decide)

/-- Witness for C4: a concrete successful run whose background step throws. -/
theorem claim4_witness :
    ∃ j, storeGet
        (runEvents [] ((simplifyTextRun envW4).preEvents ++ (simplifyTextRun envW4).postEvents))
        "jobW4" = some j ∧
      ((j.status = .completed ∧ j.analysis.isSome = true ∧ j.error = none) ∨
       (j.status = .failed ∧ j.error.isSome = true ∧ j.analysis = none)) :=
  claim4_terminal_exclusivity envW4 [] "jobW4" "t" pOut rfl

/-- C7: a valid submission by an authenticated caller whose reading profile
has `sentence === 0` and `vocabulary === 0` is answered `400` with the
`rejected` outcome before any store effect, so no job record is created and
polling any fresh id afterwards still answers `404`. -/
theorem claim7_rejected_zero_profile (uid : String) (u : UserProfile)
    (title : Option String) (ps : List Paragraph) (orc : OracleOutcome)
    (jid : String) (af : Option String) (rp : ReadingProfile) (store0 : Store)
    (hu : u.readingProfile = some rp)
    (hs : rp.sentence = some 0) (hv : rp.vocabulary = some 0)
    (ht : truthyStr title = true) :
    (simplifyTextRun ⟨true, some uid, some u, title, some ps, orc, jid, af⟩).response
        = .rejectedProfile ∧
    (simplifyTextRun ⟨true, some uid, some u, title, some ps, orc, jid, af⟩).preEvents = [] ∧
    (simplifyTextRun ⟨true, some uid, some u, title, some ps, orc, jid, af⟩).postEvents = [] ∧
    (∀ caller fid, fid ≠ "" → storeGet store0 fid = none →
      getSimplificationReport
        (runEvents store0
          ((simplifyTextRun ⟨true, some uid, some u, title, some ps, orc, jid, af⟩).preEvents ++
           (simplifyTextRun ⟨true, some uid, some u, title, some ps, orc, jid, af⟩).postEvents))
        (some caller) (some fid) = .notFound) := by
  have hrej : (effectiveReadingProfile u).sentence = some 0 ∧
      (effectiveReadingProfile u).vocabulary = some 0 := by
    simp [effectiveReadingProfile, hu, hs, hv]
  have hrun : simplifyTextRun ⟨true, some uid, some u, title, some ps, orc, jid, af⟩
      = ⟨.rejectedProfile, [], []⟩ := by
    simp [simplifyTextRun, ht, hrej]
  rw [hrun]
  refine ⟨rfl, rfl, rfl, ?_⟩
  intro caller fid hne h0
  rw [getReport_by_status _ _ _ hne]
  simpa [runEvents] using h0 ▸ rfl

/-- Witness for C7: concrete rejected submission; polling a fabricated id
against the empty store yields `404`. -/
theorem claim7_witness :
    (simplifyTextRun ⟨true, some "z", some uZ, some "t", some [], .threw, "x", none⟩).response
        = .rejectedProfile ∧
    getSimplificationReport
      (runEvents []
        ((simplifyTextRun ⟨true, some "z", some uZ, some "t", some [], .threw, "x", none⟩).preEvents ++
         (simplifyTextRun ⟨true, some "z", some uZ, some "t", some [], .threw, "x", none⟩).postEvents))
      (some "c") (some "y") = .notFound :=
  ⟨(claim7_rejected_zero_profile "z" uZ (some "t") [] .threw "x" none
      ⟨some 0, some 0⟩ [] rfl rfl rfl (by decide)).1,
   (claim7_rejected_zero_profile "z" uZ (some "t") [] .threw "x" none
      ⟨some 0, some 0⟩ [] rfl rfl rfl (by decide)).2.2.2 "c" "y" (by decide) rfl⟩

/-! ## Claims about the report query's access policy (C1) -/

/-- C1 is FALSE as stated: the store holds a completed job owned by
`"alice"`; the authenticated caller `"bob"` differs from the owner, yet the
query answers `200` with the full analysis — not `403 Forbidden`.  The
handler never compares the job's `userId` with the caller. -/
theorem claim1_counterexample :
    jobC1.userId = "alice" ∧
    getSimplificationReport storeC1 (some "bob") (some "j1")
      = .completedR (some (buildAnalysisReport [] [])) ∧
    getSimplificationReport storeC1 (some "bob") (some "j1") ≠ .forbidden :=
  ⟨rfl, rfl, by decide⟩

/-- C1 (amended): the report query performs no ownership check at all — its
answer is identical for every authenticated caller, and it never returns
`403 Forbidden`; any authenticated caller holding a job id obtains that
job's status and data regardless of owner. -/
theorem claim1_amended_no_owner_check :
    (∀ (store : Store) (c c' : String) (q : Option String),
      getSimplificationReport store (some c) q
        = getSimplificationReport store (some c') q) ∧
    (∀ (store : Store) (a : Option String) (q : Option String),
      getSimplificationReport store a q ≠ .forbidden) := by
  constructor
  · intro store c c' q
    rfl
  · intro store a q
    cases a with
    | none => simp [getSimplificationReport]
    | some c =>
      simp only [getSimplificationReport]
      split
      · simp
      · split
        · simp
        · split <;> simp

/-- Witness for the amended C1: two different authenticated callers get
the same answer for `"alice"`'s job, and that answer is not `403`. -/
theorem claim1_amended_witness :
    getSimplificationReport storeC1 (some "bob") (some "j1")
      = getSimplificationReport storeC1 (some "eve") (some "j1") ∧
    getSimplificationReport storeC1 (some "bob") (some "j1") ≠ .forbidden :=
  ⟨claim1_amended_no_owner_check.1 storeC1 "bob" "eve" (some "j1"),
   claim1_amended_no_owner_check.2 storeC1 (some "bob") (some "j1")⟩

/-! ## Claims about the oracle adapter contract (C8) -/

/-- C8 is FALSE as stated: the oracle returns one paragraph with id 2 for
an input whose only paragraph has id 1, and the handler accepts it — the
`200` response carries the mismatched paragraph list instead of rejecting
it as malformed. -/
theorem claim8_counterexample :
    envC8.paragraphs = some [⟨1, String.toList "가"⟩] ∧
    (simplifyTextRun envC8).response = .ok "job1" "t" [⟨2, String.toList "나"⟩] ∧
    ¬ ([(⟨2, String.toList "나"⟩ : Paragraph)].map Paragraph.id
        = [(⟨1, String.toList "가"⟩ : Paragraph)].map Paragraph.id) :=
  ⟨rfl, rfl, by decide⟩

/-- C8 (amended): the adapter validates only that a tool call with
arguments exists; whatever paragraph list the oracle returns (even one of
the wrong length or with different ids, or an absent field defaulted to the
empty list) is passed through verbatim in the `200` response, while a
missing tool call is answered `500`. -/
theorem claim8_amended_no_id_validation (uid : String) (u : UserProfile)
    (title : Option String) (ps : List Paragraph) (spsOpt : Option (List Paragraph))
    (jid : String) (af : Option String)
    (ht : truthyStr title = true)
    (hrej : ¬((effectiveReadingProfile u).sentence = some 0 ∧
              (effectiveReadingProfile u).vocabulary = some 0)) :
    (simplifyTextRun ⟨true, some uid, some u, title, some ps, .ok spsOpt, jid, af⟩).response
      = .ok jid (title.getD "") (spsOpt.getD []) ∧
    (simplifyTextRun ⟨true, some uid, some u, title, some ps, .noToolCall, jid, af⟩).response
      = .oracleError := by
  constructor <;> simp [simplifyTextRun, ht, hrej]

/-- Witness for the amended C8. -/
theorem claim8_amended_witness :
    (simplifyTextRun ⟨true, some "u", some uC9b, some "t", some pIn, .ok (some pOut), "j8", none⟩).response
      = .ok "j8" "t" pOut ∧
    (simplifyTextRun ⟨true, some "u", some uC9b, some "t", some pIn, .noToolCall, "j8", none⟩).response
      = .oracleError :=
  claim8_amended_no_id_validation "u" uC9b (some "t") pIn (some pOut) "j8" none
    (by decide) (by decide)

/-! ## Claims about guideline construction (C9, C10) -/

/-- C9 is FALSE as stated: `uC9` has the non-empty known-topic set
`["IT"]`, yet the guideline content passed to the oracle never mentions
`"IT"` — the guideline construction reads only the sentence and vocabulary
levels. -/
theorem claim9_counterexample :
    uC9.knownTopics = ["IT"] ∧
    ¬ List.IsInfix (String.toList "IT")
        (String.toList (simplificationGuidelines uC9)) :=
  ⟨rfl, by decide⟩

/-- C9 (amended): the guideline set built for the rewrite oracle depends
only on the reading profile's `sentence` and `vocabulary` levels;
`knownTopics` is never consulted, so no topic exemption is communicated. -/
theorem claim9_amended_guidelines_ignore_knownTopics (u u' : UserProfile)
    (h : u.readingProfile = u'.readingProfile) :
    simplificationGuidelines u = simplificationGuidelines u' := by
  unfold simplificationGuidelines effectiveReadingProfile
  rw [h]

/-- Witness for the amended C9: two users identical but for their
known-topic sets receive identical guidelines. -/
theorem claim9_amended_witness :
    simplificationGuidelines uC9 = simplificationGuidelines uC9b :=
  claim9_amended_guidelines_ignore_knownTopics uC9 uC9b rfl

/-- C10: a sentence level outside {1, 2} (0, 3, or an absent field)
contributes no sentence instruction, a vocabulary level outside {1, 2}
(including the spec-valid level 3, and an absent field) contributes no
vocabulary instruction, and whenever the two levels are not both exactly 0
the submission is not rejected — the oracle is invoked and its output
returned, possibly with an entirely empty guideline list. -/
theorem claim10_unrecognized_levels_no_guideline :
    (∀ rp : ReadingProfile,
      (rp.sentence ≠ some 1 → rp.sentence ≠ some 2 → sentenceGuidelines rp = []) ∧
      (rp.vocabulary ≠ some 1 → rp.vocabulary ≠ some 2 → vocabGuidelines rp = [])) ∧
    (∀ (uid : String) (u : UserProfile) (title : Option String) (ps : List Paragraph)
       (spsOpt : Option (List Paragraph)) (jid : String) (af : Option String),
      truthyStr title = true →
      ¬((effectiveReadingProfile u).sentence = some 0 ∧
        (effectiveReadingProfile u).vocabulary = some 0) →
      (simplifyTextRun ⟨true, some uid, some u, title, some ps, .ok spsOpt, jid, af⟩).response
        = .ok jid (title.getD "") (spsOpt.getD [])) := by
  constructor
  · intro rp
    constructor
    · intro h1 h2
      simp [sentenceGuidelines, h1, h2]
    · intro h1 h2
      simp [vocabGuidelines, h1, h2]
  · intro uid u title ps spsOpt jid af ht hrej
    simp [simplifyTextRun, ht, hrej]

/-- Witness for C10: sentence absent and vocabulary 3 yield an empty
guideline list, and the submission still succeeds. -/
theorem claim10_witness :
    sentenceGuidelines ⟨none, some 3⟩ = [] ∧
    vocabGuidelines ⟨none, some 3⟩ = [] ∧
    (simplifyTextRun ⟨true, some "u", some u10, some "t", some pIn,
        .ok (some pOut), "j10", none⟩).response = .ok "j10" "t" pOut :=
  ⟨(claim10_unrecognized_levels_no_guideline.1 ⟨none, some 3⟩).1 (by decide) (by decide),
   (claim10_unrecognized_levels_no_guideline.1 ⟨none, some 3⟩).2 (by decide) (by decide),
   claim10_unrecognized_levels_no_guideline.2 "u" u10 (some "t") pIn (some pOut)
     "j10" none (by decide) (by decide)⟩

end IGEUL
